import Mathlib

/-!
Shallow embedding of `recipe_cookbook.py` (class `RecipeCookbook`).

The effectful boundaries of the program are made explicit parameters:
  * the external generation service call is an `Except String String`
    (the exception message raised, or the text of the response);
  * the filesystem write in `save_recipe` is an `Except String Unit`;
  * console input is a list of lines consumed in order;
  * `datetime.now()` is a `PyDateTime` value passed in.
Python `str.strip` is `pyStrip`, `str.lower` is `pyLower`,
`", ".join(xs)` is `joinComma xs`.
-/

namespace RecipeCookbook

/-- Outcome payload of a generation attempt: the dictionary built by
`generate_recipe` carries either `generated_recipe` text (status "success")
or an `error` message (status "error"). -/
inductive Body where
  | success : String → Body
  | error : String → Body
deriving DecidableEq, Repr

/-- The recipe-data dictionary produced by `generate_recipe`.  The
`dietary_restrictions` and `cuisine_type` keys are absent (`none`) in the
error-branch dictionary, hence the `Option`. -/
structure RecipeData where
  timestamp : String
  input_ingredients : List String
  dietary_restrictions : Option String
  cuisine_type : Option String
  body : Body
deriving DecidableEq, Repr

/-- Python `str.strip()`: remove leading and trailing whitespace. -/
def pyStrip (s : String) : String :=
  String.mk (((s.data.dropWhile Char.isWhitespace).reverse.dropWhile
    Char.isWhitespace).reverse)

/-- Python `str.lower()`: lower-case every character. -/
def pyLower (s : String) : String :=
  String.mk (s.data.map Char.toLower)

/-- Python `", ".join(xs)`: first element verbatim, each later element
preceded by the separator. -/
def joinComma : List String → String
  | [] => ""
  | [x] => x
  | x :: y :: xs => x ++ ", " ++ joinComma (y :: xs)

/-- The fixed tail of the prompt template after the cuisine-type field:
the eight-point instruction list and closing remarks, with the 8-space
indentation the triple-quoted f-string carries. -/
def promptTail : String :=
  "\n        \n        Please provide:\n        1. Recipe name\n        2. Cooking time (prep + cook)\n        3. Servings\n        4. Complete ingredients list (including quantities and any additional ingredients needed)\n        5. Step-by-step cooking instructions\n        6. Difficulty level (Easy/Medium/Hard)\n        7. Nutritional highlights\n        8. Tips for best results\n        \n        Make the recipe practical and delicious. If some common pantry staples (salt, pepper, oil, etc.) are needed but not listed, include them in the ingredients with quantities.\n        \n        Format the response in a clear, organized manner.\n        "

/-- `RecipeCookbook.generate_recipe_prompt` (lines 70-106): the f-string
template with its 8-space indentation, interpolating the comma-joined
ingredients and substituting "None"/"Any" for falsy (empty) preference
strings. -/
def generate_recipe_prompt (ingredients : List String)
    (dietary_restrictions : String := "") (cuisine_type : String := "") : String :=
  let ingredients_str := joinComma ingredients
  "\n        Create a detailed recipe using the following ingredients: "
    ++ ingredients_str
    ++ "\n        \n        Additional preferences:\n        - Dietary restrictions: "
    ++ (if dietary_restrictions ≠ "" then dietary_restrictions else "None")
    ++ "\n        - Cuisine type: "
    ++ (if cuisine_type ≠ "" then cuisine_type else "Any")
    ++ promptTail

/-- `RecipeCookbook.generate_recipe` (lines 108-144).  `service` is the
outcome of `self.model.generate_content(prompt).text`: `.ok text` when the
call returns, `.error e` when any exception is raised inside the `try`
block (its `str(e)`).  The success dictionary records the preferences; the
error dictionary omits those keys. -/
def generate_recipe (service : Except String String) (ingredients : List String)
    (dietary_restrictions : String := "") (cuisine_type : String := "")
    (now_iso : String := "") : RecipeData :=
  match service with
  | .ok text =>
      { timestamp := now_iso
        input_ingredients := ingredients
        dietary_restrictions := some dietary_restrictions
        cuisine_type := some cuisine_type
        body := .success text }
  | .error e =>
      { timestamp := now_iso
        input_ingredients := ingredients
        dietary_restrictions := none
        cuisine_type := none
        body := .error e }

/-- Python truthiness of `recipe_data.get(key)` for an optional string
key: the key must be present and its value non-empty. -/
def truthy : Option String → Bool
  | none => false
  | some s => s ≠ ""

/-- The `"="*50` separator written by `save_recipe`. -/
def eqLine50 : String := String.mk (List.replicate 50 '=')

/-- The file content written by `RecipeCookbook.save_recipe`
(lines 161-174), as the concatenation of its `f.write` calls. -/
def save_content (rd : RecipeData) : String :=
  "=== AI Generated Recipe ===\n\n"
    ++ ("Generated on: " ++ rd.timestamp ++ "\n")
    ++ ("Input ingredients: " ++ joinComma rd.input_ingredients ++ "\n")
    ++ (if truthy rd.dietary_restrictions then
          "Dietary restrictions: " ++ rd.dietary_restrictions.getD "" ++ "\n" else "")
    ++ (if truthy rd.cuisine_type then
          "Cuisine type: " ++ rd.cuisine_type.getD "" ++ "\n" else "")
    ++ ("\n" ++ eqLine50 ++ "\n\n")
    ++ (match rd.body with
        | .success t => t
        | .error e => "Error: " ++ e)

/-- A wall-clock instant as `datetime.now()` exposes it to
`strftime("%Y%m%d_%H%M%S")`. -/
structure PyDateTime where
  year : Nat
  month : Nat
  day : Nat
  hour : Nat
  minute : Nat
  second : Nat
deriving DecidableEq, Repr

/-- Two-digit zero-padded decimal field (strftime `%m`, `%d`, `%H`, `%M`, `%S`). -/
def zfill2 (n : Nat) : String :=
  String.mk [Nat.digitChar (n / 10 % 10), Nat.digitChar (n % 10)]

/-- Four-digit zero-padded decimal field (strftime `%Y`). -/
def zfill4 (n : Nat) : String :=
  String.mk [Nat.digitChar (n / 1000 % 10), Nat.digitChar (n / 100 % 10),
    Nat.digitChar (n / 10 % 10), Nat.digitChar (n % 10)]

/-- `datetime.strftime("%Y%m%d_%H%M%S")`. -/
def strftime_compact (t : PyDateTime) : String :=
  zfill4 t.year ++ zfill2 t.month ++ zfill2 t.day ++ "_"
    ++ zfill2 t.hour ++ zfill2 t.minute ++ zfill2 t.second

/-- `RecipeCookbook.save_recipe` (lines 146-181).  `write` is the outcome
of opening and writing the file; on success the function returns the
timestamped filename and the content written, on any exception it prints
and returns the empty string (nothing durable written). -/
def save_recipe (now : PyDateTime) (write : Except String Unit)
    (rd : RecipeData) : String × Option String :=
  let timestamp := strftime_compact now
  let filename := "recipe_" ++ timestamp ++ ".txt"
  match write with
  | .ok _ => (filename, some (save_content rd))
  | .error _ => ("", none)

/-- `RecipeCookbook.get_ingredients_from_user` (lines 47-68): the
`while True` loop, reading stripped lines from `inputs`; a blank line
ends collection only once `acc` is non-empty, otherwise it re-prompts.
`none` means the script ran out of lines with the loop still waiting. -/
def get_ingredients_loop : List String → List String → Option (List String)
  | [], _ => none
  | line :: rest, acc =>
      let ingredient := pyStrip line
      if ingredient = "" then
        if acc ≠ [] then some acc else get_ingredients_loop rest acc
      else
        get_ingredients_loop rest (acc ++ [ingredient])

/-- Entry point of ingredient collection: the loop starts with an empty list. -/
def get_ingredients_from_user (inputs : List String) : Option (List String) :=
  get_ingredients_loop inputs []

/-- The `input(...).lower().strip()` normalisation applied to the save and
continue answers in `run_interactive_mode`. -/
def normalizeYN (s : String) : String := pyStrip (pyLower s)

/-- The `in ['y', 'yes']` membership test on a normalised answer. -/
def yesAnswer (s : String) : Bool :=
  normalizeYN s = "y" || normalizeYN s = "yes"

/-- Observable events of the save/continue tail of one loop iteration
(lines 236-245): the save prompt being printed, `save_recipe` being
invoked, and the continue prompt being printed. -/
inductive PhaseEv where
  | savePrompt : PhaseEv
  | saveCall : PhaseEv
  | continuePrompt : PhaseEv
deriving DecidableEq, Repr

/-- The tail of one iteration of `run_interactive_mode` after the recipe
is displayed (lines 236-245): the save prompt is issued only when the
status is success, `save_recipe` runs only on a yes answer, then the
continue question decides whether the loop repeats.  `script` is the
remaining console input; returns the emitted events, the unconsumed
input, and whether the loop repeats (`some b`) or blocked on missing
input (`none`). -/
def post_generation (success : Bool) (script : List String) :
    List PhaseEv × List String × Option Bool :=
  if success then
    match script with
    | [] => ([PhaseEv.savePrompt], [], none)
    | save_option :: rest =>
        let saveEvs := [PhaseEv.savePrompt]
          ++ (if yesAnswer save_option then [PhaseEv.saveCall] else [])
        match rest with
        | [] => (saveEvs ++ [PhaseEv.continuePrompt], [], none)
        | continue_option :: rest2 =>
            (saveEvs ++ [PhaseEv.continuePrompt], rest2, some (yesAnswer continue_option))
  else
    match script with
    | [] => ([PhaseEv.continuePrompt], [], none)
    | continue_option :: rest =>
        ([PhaseEv.continuePrompt], rest, some (yesAnswer continue_option))

/-- How one iteration of the `while True` body in `run_interactive_mode`
(lines 222-245) ends: it runs to the continue question and reads `ans`,
or `input()` raises `KeyboardInterrupt`, or some other exception escapes
the body. -/
inductive IterOutcome where
  | normal : String → IterOutcome
  | interrupt : IterOutcome
  | exn : String → IterOutcome
deriving DecidableEq, Repr

/-- Console events of the session loop itself. -/
inductive SessionEv where
  | completedIter : SessionEv
  | errorReport : String → SessionEv
  | farewell : SessionEv
deriving DecidableEq, Repr

/-- The `while True` / `try` / `except` structure of
`run_interactive_mode` (lines 221-252) folded over a script of iteration
outcomes: `KeyboardInterrupt` prints the farewell and breaks; any other
exception is reported and the loop continues; a completed iteration
breaks unless the continue answer is in `['y', 'yes']`.  Returns the
event trace and `true` when the loop terminated (rather than running out
of scripted iterations). -/
def runSession : List IterOutcome → List SessionEv × Bool
  | [] => ([], false)
  | o :: rest =>
      match o with
      | .interrupt => ([SessionEv.farewell], true)
      | .exn msg =>
          let (evs, t) := runSession rest
          (SessionEv.errorReport msg :: evs, t)
      | .normal continue_option =>
          if yesAnswer continue_option then
            let (evs, t) := runSession rest
            (SessionEv.completedIter :: evs, t)
          else
            ([SessionEv.completedIter], true)

/-- Number of occurrences of `needle` as a contiguous sublist of `hay`
(occurrences counted by starting position). -/
def subCount (needle : List Char) : List Char → Nat
  | [] => if needle = [] then 1 else 0
  | c :: rest =>
      (if needle.isPrefixOf (c :: rest) then 1 else 0) + subCount needle rest

/-- Splitting a character list at newline characters, mirroring how the
artifact text is read back as lines. -/
def splitNl : List Char → List (List Char)
  | [] => [[]]
  | c :: rest =>
      if c = '\n' then [] :: splitNl rest
      else
        match splitNl rest with
        | [] => [[c]]
        | h :: t => (c :: h) :: t

/-- Shape check for `recipe_<YYYYMMDD_HHMMSS>.txt`: the literal pieces
with 8 digits, an underscore, then 6 digits. -/
def filenamePatternOk (s : String) : Bool :=
  let cs := s.data
  decide (cs.length = 26) && "recipe_".data.isPrefixOf cs
    && ((cs.drop 7).take 8).all Char.isDigit
    && decide ((cs.drop 15).take 1 = ['_'])
    && ((cs.drop 16).take 6).all Char.isDigit
    && decide (cs.drop 22 = ".txt".data)

/-- Written from the specification: every generation result is a Success
whose text is non-empty or a Failure whose message is non-empty. -/
def outcomeNonEmptyB (rd : RecipeData) : Bool :=
  match rd.body with
  | Body.success t => t != ""
  | Body.error m => m != ""

/-- Written from the specification, section 6: the artifact layout as the
spec describes it line by line — header, blank line, timestamp line,
ingredient line, the two optional preference lines, blank line, a line of
50 equals signs, blank line, then the body (success text verbatim, or
`Error:` and the message). -/
def specArtifactFormat (ts : String) (ings : List String)
    (dietary cuisine : String) (bodyText : String) : String :=
  "=== AI Generated Recipe ===\n"
    ++ "\n"
    ++ ("Generated on: " ++ ts ++ "\n")
    ++ ("Input ingredients: " ++ joinComma ings ++ "\n")
    ++ (if dietary ≠ "" then "Dietary restrictions: " ++ dietary ++ "\n" else "")
    ++ (if cuisine ≠ "" then "Cuisine type: " ++ cuisine ++ "\n" else "")
    ++ "\n"
    ++ (String.mk (List.replicate 50 '=') ++ "\n")
    ++ "\n"
    ++ bodyText

/-! Shared helper lemmas. -/

theorem splitNl_nlfree (x : List Char) (hx : '\n' ∉ x) : splitNl x = [x] := by
  induction x with
  | nil => rfl
  | cons c rest ih =>
      have hc : c ≠ '\n' := fun h => hx (h ▸ List.mem_cons_self c rest)
      have hrest : '\n' ∉ rest := fun h => hx (List.mem_cons_of_mem c h)
      simp [splitNl, hc, ih hrest]

theorem splitNl_line (x rest : List Char) (hx : '\n' ∉ x) :
    splitNl (x ++ '\n' :: rest) = x :: splitNl rest := by
  induction x with
  | nil => simp [splitNl]
  | cons c tail ih =>
      have hc : c ≠ '\n' := fun h => hx (h ▸ List.mem_cons_self c tail)
      have htail : '\n' ∉ tail := fun h => hx (List.mem_cons_of_mem c h)
      simp [splitNl, hc, ih htail]

theorem joinComma_nlfree (ings : List String)
    (h : ∀ x ∈ ings, '\n' ∉ x.data) : '\n' ∉ (joinComma ings).data := by
  induction ings with
  | nil => simp [joinComma]
  | cons a tail ih =>
      cases tail with
      | nil =>
          simpa [joinComma] using h a (List.mem_cons_self a [])
      | cons b t =>
          have ha : '\n' ∉ a.data := h a (List.mem_cons_self a (b :: t))
          have htail : '\n' ∉ (joinComma (b :: t)).data :=
            ih (fun x hx => h x (List.mem_cons_of_mem a hx))
          simp only [joinComma, String.data_append]
          intro hmem
          rcases List.mem_append.mp hmem with h1 | h2
          · rcases List.mem_append.mp h1 with h3 | h4
            · exact ha h3
            · simp at h4
          · exact htail h2

theorem digitChar_mod_isDigit (n : Nat) : (Nat.digitChar (n % 10)).isDigit = true := by
  have h : n % 10 < 10 := Nat.mod_lt _ (by norm_num)
  set m := n % 10 with hm
  interval_cases m <;> decide

/-! Claim theorems. -/

/-- C1 counterexample: when the external service call returns the empty
string, `generate_recipe` produces a Success outcome whose generated text
is empty, so the claim that every Success carries non-empty text fails. -/
theorem C1_counterexample :
    outcomeNonEmptyB (generate_recipe (Except.ok "") ["chicken"] "" "" "2024-01-01T00:00:00")
      = false := by
  decide

/-- C1 (amended): `generate_recipe` is a total function (no exception
escapes the try block) and every call returns either a Success outcome
carrying the service text verbatim together with the supplied preferences,
or a Failure outcome carrying the exception message verbatim; emptiness of
the text or the message is not enforced. -/
theorem C1_generate_total_shape (service : Except String String)
    (ings : List String) (d c ts : String) :
    (∃ t, service = Except.ok t ∧
        generate_recipe service ings d c ts
          = ⟨ts, ings, some d, some c, Body.success t⟩)
  ∨ (∃ e, service = Except.error e ∧
        generate_recipe service ings d c ts
          = ⟨ts, ings, none, none, Body.error e⟩) := by
  cases service with
  | ok t => exact Or.inl ⟨t, rfl, rfl⟩
  | error e => exact Or.inr ⟨e, rfl, rfl⟩

/-- C2: the content written by `save_recipe` matches the section 6 format
byte for byte: for a Success result the header block followed by the
recipe text verbatim, the preference lines appearing exactly when the
corresponding value is non-empty; for a Failure result the text position
holds `Error:` followed by the message. -/
theorem C2_save_content_matches_spec (ts : String) (ings : List String)
    (d c txt err : String) :
    save_content ⟨ts, ings, some d, some c, Body.success txt⟩
      = specArtifactFormat ts ings d c txt
  ∧ save_content ⟨ts, ings, some d, some c, Body.error err⟩
      = specArtifactFormat ts ings d c ("Error: " ++ err)
  ∧ save_content ⟨ts, ings, none, none, Body.error err⟩
      = specArtifactFormat ts ings "" "" ("Error: " ++ err) := by
  refine ⟨?_, ?_, ?_⟩ <;>
  · apply String.ext
    by_cases hd : d = "" <;> by_cases hc : c = "" <;>
      simp [save_content, specArtifactFormat, truthy, eqLine50, hd, hc,
        String.data_append]

theorem get_loop_sound (inputs : List String) : ∀ (acc out : List String),
    get_ingredients_loop inputs acc = some out →
    out ≠ [] ∧ ∀ x ∈ out, x ∈ acc ∨ (x ≠ "" ∧ ∃ line ∈ inputs, x = pyStrip line) := by
  induction inputs with
  | nil => intro acc out h; simp [get_ingredients_loop] at h
  | cons line rest ih =>
      intro acc out h
      by_cases hl : pyStrip line = ""
      · by_cases hacc : acc = []
        · subst hacc
          simp [get_ingredients_loop, hl] at h
          rcases ih [] out h with ⟨hne, hmem⟩
          refine ⟨hne, fun x hx => ?_⟩
          rcases hmem x hx with h1 | ⟨h2, l, hlmem, hlx⟩
          · simp at h1
          · exact Or.inr ⟨h2, l, List.mem_cons_of_mem line hlmem, hlx⟩
        · simp [get_ingredients_loop, hl, hacc] at h
          subst h
          exact ⟨hacc, fun x hx => Or.inl hx⟩
      · simp only [get_ingredients_loop, hl, if_neg hl] at h
        rcases ih (acc ++ [pyStrip line]) out h with ⟨hne, hmem⟩
        refine ⟨hne, fun x hx => ?_⟩
        rcases hmem x hx with h1 | ⟨h2, l, hlmem, hlx⟩
        · rcases List.mem_append.mp h1 with h3 | h4
          · exact Or.inl h3
          · simp at h4
            exact Or.inr ⟨h4 ▸ hl, line, List.mem_cons_self line rest, h4⟩
        · exact Or.inr ⟨h2, l, List.mem_cons_of_mem line hlmem, hlx⟩

/-- C3: in ingredient collection a blank line with nothing collected
re-prompts (the loop recurses on the remaining input with the empty
accumulator), a blank line with at least one collected ingredient ends
collection returning the accumulator, and any returned ingredient list is
non-empty with every entry a non-empty stripped input line. -/
theorem C3_ingredient_collection :
    (∀ line rest, pyStrip line = "" →
        get_ingredients_loop (line :: rest) [] = get_ingredients_loop rest [])
  ∧ (∀ line rest acc, pyStrip line = "" → acc ≠ [] →
        get_ingredients_loop (line :: rest) acc = some acc)
  ∧ (∀ inputs out, get_ingredients_from_user inputs = some out →
        out ≠ [] ∧ ∀ x ∈ out, x ≠ "" ∧ ∃ line ∈ inputs, x = pyStrip line) := by
  refine ⟨?_, ?_, ?_⟩
  · intro line rest hl
    simp [get_ingredients_loop, hl]
  · intro line rest acc hl hacc
    simp [get_ingredients_loop, hl, hacc]
  · intro inputs out h
    rcases get_loop_sound inputs [] out h with ⟨hne, hmem⟩
    refine ⟨hne, fun x hx => ?_⟩
    rcases hmem x hx with h1 | ⟨h2, l, hlmem, hlx⟩
    · simp at h1
    · exact ⟨h2, l, hlmem, hlx⟩

/-- C3 witness: concrete runs of the collection loop. -/
theorem C3_witness :
    get_ingredients_loop ["", "tomato", ""] [] = get_ingredients_loop ["tomato", ""] []
  ∧ get_ingredients_loop [""] ["tomato"] = some ["tomato"]
  ∧ (["tomato"] ≠ [] ∧ ∀ x ∈ (["tomato"] : List String), x ≠ "" ∧
        ∃ line ∈ (["", "tomato", ""] : List String), x = pyStrip line) :=
  ⟨C3_ingredient_collection.1 "" ["tomato", ""] (by decide),
   C3_ingredient_collection.2.1 "" [] ["tomato"] (by decide) (by decide),
   C3_ingredient_collection.2.2 ["", "tomato", ""] ["tomato"] (by decide)⟩

/-- C4: a continue answer whose stripped lower-casing is y or yes makes
the session loop run the next iteration (the trace and termination flag
continue with the remaining script), and any other answer — including n
and the empty string — ends the session after the current iteration. -/
theorem C4_continue_decision :
    (∀ ans, ans ∈ (["y", "Y", "yes", "YES"] : List String) → ∀ rest,
        runSession (IterOutcome.normal ans :: rest)
          = (SessionEv.completedIter :: (runSession rest).1, (runSession rest).2))
  ∧ (∀ ans rest, normalizeYN ans ≠ "y" → normalizeYN ans ≠ "yes" →
        runSession (IterOutcome.normal ans :: rest) = ([SessionEv.completedIter], true))
  ∧ normalizeYN "n" ≠ "y" ∧ normalizeYN "n" ≠ "yes"
  ∧ normalizeYN "" ≠ "y" ∧ normalizeYN "" ≠ "yes" := by
  refine ⟨?_, ?_, by decide, by decide, by decide, by decide⟩
  · intro ans h rest
    have hy : yesAnswer ans = true := by
      fin_cases h <;> decide
    rcases hr : runSession rest with ⟨evs, t⟩
    simp [runSession, hy, hr]
  · intro ans rest h1 h2
    have hy : yesAnswer ans = false := by
      simp [yesAnswer, h1, h2]
    simp [runSession, hy]

/-- C4 witness: a yes answer chains into the next iteration and an n
answer terminates. -/
theorem C4_witness :
    runSession [IterOutcome.normal "Y", IterOutcome.normal "n"]
      = ([SessionEv.completedIter, SessionEv.completedIter], true) := by
  have h1 := C4_continue_decision.1 "Y" (by decide) [IterOutcome.normal "n"]
  have h2 := C4_continue_decision.2.1 "n" [] (by decide) (by decide)
  rw [h1, h2]

/-- C5: after a Failure outcome neither the save prompt nor a call to
`save_recipe` appears in the iteration tail, and after a Success outcome
`save_recipe` is invoked exactly when the normalised save answer is y or
yes. -/
theorem C5_persist_only_on_success_and_confirm :
    (∀ script, PhaseEv.savePrompt ∉ (post_generation false script).1
             ∧ PhaseEv.saveCall ∉ (post_generation false script).1)
  ∧ (∀ save_ans rest,
        PhaseEv.saveCall ∈ (post_generation true (save_ans :: rest)).1
          ↔ yesAnswer save_ans = true) := by
  constructor
  · intro script
    cases script <;> simp [post_generation]
  · intro save_ans rest
    cases rest <;> by_cases h : yesAnswer save_ans <;> simp [post_generation, h]

/-- C5 witness: the gating evaluated on concrete scripts. -/
theorem C5_witness :
    PhaseEv.saveCall ∉ (post_generation false ["y", "y"]).1
  ∧ (PhaseEv.saveCall ∈ (post_generation true ["y", "n"]).1 ↔ yesAnswer "y" = true) :=
  ⟨(C5_persist_only_on_success_and_confirm.1 ["y", "y"]).2,
   C5_persist_only_on_success_and_confirm.2 "y" ["n"]⟩

/-- C9: an unexpected exception in one iteration is reported and the loop
carries on with the remaining script unchanged, while a keyboard
interrupt ends the session at once with only the farewell message,
regardless of what the script still holds. -/
theorem C9_loop_resilience :
    (∀ msg rest, runSession (IterOutcome.exn msg :: rest)
        = (SessionEv.errorReport msg :: (runSession rest).1, (runSession rest).2))
  ∧ (∀ rest, runSession (IterOutcome.interrupt :: rest) = ([SessionEv.farewell], true)) := by
  constructor
  · intro msg rest
    rcases hr : runSession rest with ⟨evs, t⟩
    simp [runSession, hr]
  · intro rest
    simp [runSession]

set_option maxRecDepth 40000 in
/-- C6 counterexample: with the single-entry ingredient list containing
the word recipe, the prompt holds that ingredient as a substring three
times (once in the interpolated ingredient list and twice in the fixed
template text), not exactly once as the claim states. -/
theorem C6_counterexample :
    subCount "recipe".data (generate_recipe_prompt ["recipe"] "" "").data = 3 := by
  decide

set_option maxRecDepth 40000 in
/-- C6 (amended): for every non-empty ingredient list the prompt contains
the comma-space join of the ingredients, in input order, as one contiguous
substring; an individual ingredient may additionally occur elsewhere in
the fixed template text, so an exactly-once count is not guaranteed. -/
theorem C6_prompt_contains_joined_ingredients (ings : List String) (d c : String)
    (hne : ings ≠ []) :
    ∃ a b, generate_recipe_prompt ings d c = a ++ joinComma ings ++ b := by
  refine ⟨"\n        Create a detailed recipe using the following ingredients: ",
    "\n        \n        Additional preferences:\n        - Dietary restrictions: "
      ++ (if d ≠ "" then d else "None")
      ++ "\n        - Cuisine type: "
      ++ (if c ≠ "" then c else "Any")
      ++ promptTail, ?_⟩
  apply String.ext
  simp [generate_recipe_prompt, String.data_append]

/-- C6 witness: the joined-substring decomposition at a concrete input. -/
theorem C6_witness :
    ∃ a b, generate_recipe_prompt ["chicken", "rice"] "" "Indian"
      = a ++ joinComma ["chicken", "rice"] ++ b :=
  C6_prompt_contains_joined_ingredients ["chicken", "rice"] "" "Indian" (by decide)

set_option maxRecDepth 40000 in
/-- C7: the prompt builder is a pure total function — equal argument
triples give the identical string — and an empty dietary string renders
the default None while an empty cuisine string renders the default Any. -/
theorem C7_prompt_pure_and_defaults :
    (∀ i₁ d₁ c₁ i₂ d₂ c₂, i₁ = i₂ → d₁ = d₂ → c₁ = c₂ →
        generate_recipe_prompt i₁ d₁ c₁ = generate_recipe_prompt i₂ d₂ c₂)
  ∧ (∀ ings c, ∃ a b,
        generate_recipe_prompt ings "" c = a ++ "- Dietary restrictions: None" ++ b)
  ∧ (∀ ings d, ∃ a b,
        generate_recipe_prompt ings d "" = a ++ "- Cuisine type: Any" ++ b) := by
  refine ⟨?_, ?_, ?_⟩
  · intro i₁ d₁ c₁ i₂ d₂ c₂ hi hd hc
    rw [hi, hd, hc]
  · intro ings c
    refine ⟨"\n        Create a detailed recipe using the following ingredients: "
      ++ joinComma ings ++ "\n        \n        Additional preferences:\n        ",
      "\n        - Cuisine type: " ++ (if c ≠ "" then c else "Any") ++ promptTail, ?_⟩
    apply String.ext
    simp [generate_recipe_prompt, String.data_append]
  · intro ings d
    refine ⟨"\n        Create a detailed recipe using the following ingredients: "
      ++ joinComma ings ++ "\n        \n        Additional preferences:\n        - Dietary restrictions: "
      ++ (if d ≠ "" then d else "None") ++ "\n        ",
      promptTail, ?_⟩
    apply String.ext
    simp [generate_recipe_prompt, String.data_append]

/-- C7 witness: determinism and both defaults at concrete inputs. -/
theorem C7_witness :
    generate_recipe_prompt ["egg"] "" "" = generate_recipe_prompt ["egg"] "" ""
  ∧ (∃ a b, generate_recipe_prompt ["egg"] "" ""
      = a ++ "- Dietary restrictions: None" ++ b)
  ∧ (∃ a b, generate_recipe_prompt ["egg"] "" ""
      = a ++ "- Cuisine type: Any" ++ b) :=
  ⟨C7_prompt_pure_and_defaults.1 ["egg"] "" "" ["egg"] "" "" rfl rfl rfl,
   C7_prompt_pure_and_defaults.2.1 ["egg"] "",
   C7_prompt_pure_and_defaults.2.2 ["egg"] ""⟩

/-- C8 counterexample: on a filesystem write failure `save_recipe`
returns the empty string, not a descriptive failure value — the error
description is only printed, never returned. -/
theorem C8_counterexample :
    (save_recipe ⟨2024, 3, 7, 9, 5, 59⟩ (Except.error "disk full")
      (generate_recipe (Except.ok "T") ["egg"] "" "" "ts")).1 = "" := by
  rfl

/-- C8 (amended): `save_recipe` is a total function (the write failure is
absorbed); on success it returns the filename recipe_YYYYMMDD_HHMMSS.txt
built from the current timestamp at second precision, a string matching
the documented pattern, and on a write failure it returns the empty
string. -/
theorem C8_save_recipe_filename (now : PyDateTime) (rd : RecipeData) (e : String)
    (hy : now.year < 10000) (hmo : now.month < 100) (hd : now.day < 100)
    (hh : now.hour < 100) (hmi : now.minute < 100) (hs : now.second < 100) :
    (save_recipe now (Except.ok ()) rd).1 = "recipe_" ++ strftime_compact now ++ ".txt"
  ∧ filenamePatternOk (save_recipe now (Except.ok ()) rd).1 = true
  ∧ (save_recipe now (Except.error e) rd).1 = "" := by
  refine ⟨rfl, ?_, rfl⟩
  simp [filenamePatternOk, save_recipe, strftime_compact, zfill4, zfill2,
    String.data_append, digitChar_mod_isDigit, List.isPrefixOf]

/-- C8 witness: the amended statement at a concrete timestamp and write
outcomes. -/
theorem C8_witness :
    (save_recipe ⟨2024, 3, 7, 9, 5, 59⟩ (Except.ok ())
        (generate_recipe (Except.ok "T") ["egg"] "" "" "ts")).1
      = "recipe_" ++ strftime_compact ⟨2024, 3, 7, 9, 5, 59⟩ ++ ".txt"
  ∧ filenamePatternOk (save_recipe ⟨2024, 3, 7, 9, 5, 59⟩ (Except.ok ())
        (generate_recipe (Except.ok "T") ["egg"] "" "" "ts")).1 = true
  ∧ (save_recipe ⟨2024, 3, 7, 9, 5, 59⟩ (Except.error "boom")
        (generate_recipe (Except.ok "T") ["egg"] "" "" "ts")).1 = "" :=
  C8_save_recipe_filename ⟨2024, 3, 7, 9, 5, 59⟩
    (generate_recipe (Except.ok "T") ["egg"] "" "" "ts") "boom"
    (by decide) (by decide) (by decide) (by decide) (by decide) (by decide)

set_option maxRecDepth 40000 in
/-- C10 counterexample: when the error message itself spans two lines and
its second line begins with the preference label, the artifact saved from
the Failure result does contain a line beginning with Dietary
restrictions, so the unconditional never-contains reading of the claim
fails; the label line comes from the message text, not from the store. -/
theorem C10_counterexample :
    "Dietary restrictions: sneaked".data ∈ splitNl (save_content
      (generate_recipe (Except.error "boom\nDietary restrictions: sneaked")
        ["egg"] "vegan" "Thai" "T")).data
  ∧ "Dietary restrictions:".data.isPrefixOf "Dietary restrictions: sneaked".data
      = true := by
  decide

/-- C10 (amended): a Failure dictionary from `generate_recipe` holds no
dietary-restrictions or cuisine-type entry, even when non-empty
preferences were supplied, and consequently no line of the artifact saved
from it begins with Dietary restrictions or Cuisine type (assuming the
timestamp, the ingredients, and the error message contain no newline of
their own). -/
theorem C10_failure_artifact_no_preference_lines (ings : List String)
    (d c ts e : String) (hts : '\n' ∉ ts.data)
    (hings : ∀ x ∈ ings, '\n' ∉ x.data) (he : '\n' ∉ e.data) :
    (generate_recipe (Except.error e) ings d c ts).dietary_restrictions = none
  ∧ (generate_recipe (Except.error e) ings d c ts).cuisine_type = none
  ∧ ∀ l ∈ splitNl (save_content (generate_recipe (Except.error e) ings d c ts)).data,
      "Dietary restrictions:".data.isPrefixOf l = false
    ∧ "Cuisine type:".data.isPrefixOf l = false := by
  refine ⟨rfl, rfl, ?_⟩
  have hdata : (save_content (generate_recipe (Except.error e) ings d c ts)).data
      = "=== AI Generated Recipe ===".data
        ++ '\n' :: ([] ++ '\n' :: (("Generated on: ".data ++ ts.data)
        ++ '\n' :: (("Input ingredients: ".data ++ (joinComma ings).data)
        ++ '\n' :: ([] ++ '\n' :: (List.replicate 50 '='
        ++ '\n' :: ([] ++ '\n' :: ("Error: ".data ++ e.data))))))) := by
    simp [save_content, generate_recipe, truthy, eqLine50, String.data_append]
  have h3 : '\n' ∉ "Generated on: ".data ++ ts.data := by
    intro hmem
    rcases List.mem_append.mp hmem with h1 | h2
    · simp at h1
    · exact hts h2
  have h4 : '\n' ∉ "Input ingredients: ".data ++ (joinComma ings).data := by
    intro hmem
    rcases List.mem_append.mp hmem with h1 | h2
    · simp at h1
    · exact joinComma_nlfree ings hings h2
  have h6 : '\n' ∉ List.replicate 50 '=' := by
    intro hmem
    have := List.eq_of_mem_replicate hmem
    simp at this
  have h8 : '\n' ∉ "Error: ".data ++ e.data := by
    intro hmem
    rcases List.mem_append.mp hmem with h1 | h2
    · simp at h1
    · exact he h2
  have hlines : splitNl (save_content (generate_recipe (Except.error e) ings d c ts)).data
      = ["=== AI Generated Recipe ===".data, [],
          "Generated on: ".data ++ ts.data,
          "Input ingredients: ".data ++ (joinComma ings).data, [],
          List.replicate 50 '=', [],
          "Error: ".data ++ e.data] := by
    rw [hdata]
    rw [splitNl_line _ _ (by decide), splitNl_line _ _ (by decide),
      splitNl_line _ _ h3, splitNl_line _ _ h4, splitNl_line _ _ (by decide),
      splitNl_line _ _ h6, splitNl_line _ _ (by decide), splitNl_nlfree _ h8]
  rw [hlines]
  intro l hl
  simp only [List.mem_cons, List.not_mem_nil, or_false] at hl
  rcases hl with h | h | h | h | h | h | h | h <;> subst h <;> exact ⟨rfl, rfl⟩

/-- C10 witness: the last artifact line of a concrete failing generation
carries the error message and starts with neither preference label. -/
theorem C10_witness :
    "Dietary restrictions:".data.isPrefixOf ("Error: ".data ++ "network error".data) = false
  ∧ "Cuisine type:".data.isPrefixOf ("Error: ".data ++ "network error".data) = false := by
  have h := C10_failure_artifact_no_preference_lines ["egg"] "vegan" "Thai"
    "2024-01-01T00:00:00" "network error" (by decide) (by decide) (by decide)
  refine h.2.2 ("Error: ".data ++ "network error".data) ?_
  decide

end RecipeCookbook
